import Mathlib

/-!
Shallow embedding of the Ants repository (src/ants.py, src/signals.py,
src/utils.py) and proofs about its specification claims.

Python floats are modelled by exact rationals (ℚ); Python ints by ℤ.
Python exceptions are modelled by the `PyErr` type: an operation that can
raise returns either an `Except PyErr _`, or a pair whose first component
is `Option PyErr` when the post-state of the receiver matters even on a
raised exception.
-/

namespace Ants

/-- The Python exception kinds raised (or raisable) by the code under
consideration. `exception` stands for the bare `Exception` raised by
`Signal.increase` on an identity mismatch (signals.py line 35). -/
inductive PyErr where
  | attributeError
  | typeError
  | zeroDivisionError
  | exception
  | directionError
  deriving Repr, DecidableEq

/-! ## utils.py : Position and directions -/

/-- `Position` (utils.py lines 22-25): a frozen dataclass of two ints. -/
structure Position where
  x : Int
  y : Int
  deriving Repr, DecidableEq

/-- `Position.__add__` (utils.py lines 38-41), Position operand case. -/
def Position.add (p q : Position) : Position := ⟨p.x + q.x, p.y + q.y⟩

instance : Add Position := ⟨Position.add⟩

/-- `Position.__mul__` (utils.py lines 48-50), int operand branch. -/
def Position.mulInt (p : Position) (k : Int) : Position := ⟨p.x * k, p.y * k⟩

/-- Python `round` for exact values: round half to even (banker's rounding). -/
def pyRound (q : ℚ) : Int :=
  if q - ⌊q⌋ < 1/2 then ⌊q⌋
  else if 1/2 < q - ⌊q⌋ then ⌊q⌋ + 1
  else if ⌊q⌋ % 2 = 0 then ⌊q⌋ else ⌊q⌋ + 1

/-- `Position.__mul__` (utils.py lines 51-52), float operand branch:
each product is rounded with Python `round`. -/
def Position.mulFloat (p : Position) (r : ℚ) : Position :=
  ⟨pyRound (p.x * r), pyRound (p.y * r)⟩

/-- `Position.__mod__` (utils.py lines 63-67): component-wise Python `%`.
`Int.emod` agrees with Python `%` (result has the sign of the divisor for
positive divisors). -/
def Position.mod (p q : Position) : Position := ⟨p.x % q.x, p.y % q.y⟩

/-- The `Direction` IntEnum codes (utils.py lines 9-17). -/
def Direction.UP : Int := 0

/-- `Direction.LEFT = 1` (utils.py line 15). -/
def Direction.LEFT : Int := 1

/-- `Direction.DOWN = 2` (utils.py line 16). -/
def Direction.DOWN : Int := 2

/-- `Direction.RIGHT = 3` (utils.py line 17). -/
def Direction.RIGHT : Int := 3

/-- `DIRECTION_VECTORS` (utils.py lines 119-124), modelled as the lookup
function of the dict keyed by the IntEnum codes; `none` is a `KeyError`. -/
def DIRECTION_VECTORS (d : Int) : Option Position :=
  if d = Direction.UP then some ⟨0, -1⟩
  else if d = Direction.LEFT then some ⟨-1, 0⟩
  else if d = Direction.DOWN then some ⟨0, 1⟩
  else if d = Direction.RIGHT then some ⟨1, 0⟩
  else none

/-- `Position.move_dir` (utils.py lines 75-94):
`self + DIRECTION_VECTORS[direction] * distance`, where a `KeyError` on the
dict lookup is re-raised as `DirectionError`. -/
def Position.move_dir (p : Position) (direction : Int) (distance : Int) :
    Except PyErr Position :=
  match DIRECTION_VECTORS direction with
  | some v => .ok (p + v.mulInt distance)
  | none => .error .directionError

/-! ## signals.py : Signal -/

/-- `Signal` (signals.py lines 4-8): id, intensity, decay. -/
structure Signal where
  id : String
  intensity : ℚ
  decay : ℚ
  deriving Repr, DecidableEq

/-- `Signal.decrease` (signals.py lines 10-25): subtract `decay * dt` from
`intensity`; clamp at 0 and report `true` when the result is ≤ 0.
Returns the post-state paired with the returned bool. -/
def Signal.decrease (s : Signal) (dt : ℚ) : Signal × Bool :=
  if s.intensity - s.decay * dt ≤ 0 then ({ s with intensity := 0 }, true)
  else ({ s with intensity := s.intensity - s.decay * dt }, false)

/-- `Signal.increase` (signals.py lines 27-37), merging `signal` into `self`.
The identity check (line 34-35) raises before any field is assigned; the
right-hand side of the `self.decay` assignment (line 36) raises
`ZeroDivisionError` when the total intensity is zero, also before any field
is assigned.  The result is the raised exception (if any) paired with the
post-state of `self`. -/
def Signal.increase (self signal : Signal) : Option PyErr × Signal :=
  if self.id ≠ signal.id then
    (some .exception, self)
  else if signal.intensity + self.intensity = 0 then
    (some .zeroDivisionError, self)
  else
    (none,
      { id := self.id
        intensity := self.intensity + signal.intensity
        decay := (signal.decay * signal.intensity + self.decay * self.intensity) /
          (signal.intensity + self.intensity) })

/-! ## ants.py : Ant, Cell, World -/

/-- `Ant` (ants.py lines 95-98): an empty stub class. -/
structure Ant where
  deriving Repr, DecidableEq

/-- `Cell` (ants.py lines 7-20).  The Python dict `signals` is modelled as
an insertion-ordered association list with unique keys. -/
structure Cell where
  pos : Position
  ant : Option Ant
  signals : List (String × Signal)
  food : ℚ
  deriving Repr, DecidableEq

/-- `Cell.__init__` (ants.py lines 12-20): no ant, no signals, no food. -/
def Cell.init (pos : Position) : Cell := ⟨pos, none, [], 0⟩

/-- `Cell.grab_food` (ants.py lines 22-39).  Returns the grabbed amount
paired with the post-state of the cell. -/
def Cell.grab_food (c : Cell) (amount : ℚ) : ℚ × Cell :=
  if c.food ≥ amount then (amount, { c with food := c.food - amount })
  else (c.food, { c with food := 0 })

/-- `Cell.get_signal` (ants.py lines 41-54): intensity of the stored signal
if the key is present, else 0.0. -/
def Cell.get_signal (c : Cell) (key : String) : ℚ :=
  match List.lookup key c.signals with
  | some s => s.intensity
  | none => 0

/-- Replace the value stored under `key` in a dict-as-association-list. -/
def updateSig (signals : List (String × Signal)) (key : String) (s : Signal) :
    List (String × Signal) :=
  signals.map fun kv => if kv.1 = key then (kv.1, s) else kv

/-- `Cell.add_signal` (ants.py lines 56-64): if a signal with the same id is
stored, merge the incoming one into it in place (exceptions from
`Signal.increase` propagate); otherwise do nothing. -/
def Cell.add_signal (c : Cell) (signal : Signal) : Option PyErr × Cell :=
  match List.lookup signal.id c.signals with
  | some s =>
      let (e, s2) := s.increase signal
      (e, { c with signals := updateSig c.signals signal.id s2 })
  | none => (none, c)

/-- Apply a list of `add_signal` calls in order (exceptions discarded:
none arise in the uses below). -/
def Cell.addAll (c : Cell) (ss : List Signal) : Cell :=
  ss.foldl (fun c s => (c.add_signal s).2) c

/-- `World` (ants.py lines 68-75).  `__init__` (lines 73-75) assigns exactly
two attributes: `grid` and `ants`. -/
structure World where
  grid : List (List Cell)
  ants : List Ant

/-- `World.__init__` (ants.py lines 73-75): a W×H nested list of cells,
outer index x, inner index y; empty ant list.  Note: `W` and `H` are used
to build the grid but are NOT stored as attributes. -/
def World.init (W H : Nat) : World :=
  { grid := (List.range W).map fun x => (List.range H).map fun y =>
      Cell.init ⟨x, y⟩
    ants := [] }

/-- Attribute lookup `self.W` on a `World` instance.  `World.__init__`
(ants.py lines 73-75) assigns only `grid` and `ants`, and no other code in
the repository assigns a `W` attribute, so the lookup fails
(`AttributeError`) on every instance. -/
def World.attrW (_ : World) : Option Int := none

/-- Attribute lookup `self.H` on a `World` instance; never assigned, like
`W`. -/
def World.attrH (_ : World) : Option Int := none

/-- `World.get_cell` (ants.py lines 77-78): `self.grid[pos % Position(self.W,
self.H)]`.  Evaluation order: `self.grid`, then `self.W` — which raises
`AttributeError` since `__init__` never assigns it.  (Were `W` and `H`
present, `self.grid[<Position>]` would still raise `TypeError`: a Python
list cannot be indexed by a `Position`.) -/
def World.get_cell (w : World) (pos : Position) : Except PyErr Cell :=
  match w.attrW, w.attrH with
  | some _, some _ => .error .typeError
  | _, _ => .error .attributeError

/-- `World.get_signal` (ants.py lines 80-81):
`self.get_cell(pos).get_signal(id)`. -/
def World.get_signal (w : World) (pos : Position) (id : String) :
    Except PyErr ℚ := do
  pure ((← w.get_cell pos).get_signal id)

/-- Python `range(a, b, 1)` as a list of ints. -/
def pyRange (a b : Int) : List Int := (List.range (b - a).toNat).map fun i => a + i

/-- `World.signal_gradient` (ants.py lines 83-90): accumulate
`offset * intensity` (Position × float multiplication, hence rounded) over
the square of offsets in `[-dist, dist]²`; exceptions from `get_signal`
propagate. -/
def World.signal_gradient (w : World) (pos : Position) (dist : Int)
    (id : String) : Except PyErr Position := do
  let mut grad : Position := ⟨0, 0⟩
  for x in pyRange (-dist) (dist + 1) do
    for y in pyRange (-dist) (dist + 1) do
      let offset : Position := ⟨x, y⟩
      let signal ← w.get_signal (pos + offset) id
      grad := grad + offset.mulFloat signal
  return grad

/-- Build `w` with the signal `s` stored (under its own id) in the cell at
grid indices `(x, y)` — direct placement into the grid, as the gradient
test scenario requires. -/
def setSignalAt (w : World) (x y : Nat) (s : Signal) : World :=
  match w.grid[x]? with
  | none => w
  | some col =>
    match col[y]? with
    | none => w
    | some c =>
        { w with grid := w.grid.set x (col.set y { c with signals := [(s.id, s)] }) }

/-! ## Helper lemmas -/

lemma Position.add_def (p q : Position) : p + q = ⟨p.x + q.x, p.y + q.y⟩ := rfl

lemma increase_ok (A B : Signal) (hid : A.id = B.id)
    (hsum : B.intensity + A.intensity ≠ 0) :
    A.increase B = (none,
      { id := A.id
        intensity := A.intensity + B.intensity
        decay := (B.decay * B.intensity + A.decay * A.intensity) /
          (B.intensity + A.intensity) }) := by
  unfold Signal.increase
  rw [if_neg (by simp [hid]), if_neg hsum]

lemma addAll_empty (ss : List Signal) :
    ∀ c : Cell, c.signals = [] → c.addAll ss = c := by
  induction ss with
  | nil => intro c _; rfl
  | cons s t ih =>
      intro c hc
      have h1 : c.add_signal s = (none, c) := by
        unfold Cell.add_signal
        rw [hc]
        rfl
      show Cell.addAll ((c.add_signal s).2) t = c
      rw [h1]
      exact ih c hc

/-! ## Claims -/

/-- Claim C1: the claim says `get_cell` wraps the position component-wise into
the grid and returns the stored cell.  The code does not: `World.__init__`
never assigns `self.W` or `self.H`, so `self.grid[pos % Position(self.W,
self.H)]` raises `AttributeError` on every call, for every world the
repository can construct and every position. -/
theorem C1_get_cell_raises_attribute_error (w : World) (pos : Position) :
    w.get_cell pos = .error .attributeError := rfl

/-- Claim C2: merging signal B into signal A (same identity, positive
intensities a and b) sets A's intensity to `a + b` and A's decay to
`(da·a + db·b)/(a + b)`, without raising; and the merge is commutative in
the resulting intensity and decay. -/
theorem C2_increase_merge (A B : Signal) (hid : A.id = B.id)
    (ha : 0 < A.intensity) (hb : 0 < B.intensity) :
    A.increase B = (none,
      { id := A.id
        intensity := A.intensity + B.intensity
        decay := (A.decay * A.intensity + B.decay * B.intensity) /
          (A.intensity + B.intensity) }) ∧
    (B.increase A).2.intensity = (A.increase B).2.intensity ∧
    (B.increase A).2.decay = (A.increase B).2.decay := by
  have h1 : B.intensity + A.intensity ≠ 0 := by intro hc; linarith
  have h2 : A.intensity + B.intensity ≠ 0 := by intro hc; linarith
  have eAB := increase_ok A B hid h1
  have eBA := increase_ok B A hid.symm h2
  refine ⟨?_, ?_, ?_⟩
  · rw [eAB, add_comm (B.decay * B.intensity) (A.decay * A.intensity),
      add_comm B.intensity A.intensity]
  · rw [eAB, eBA]
    exact add_comm B.intensity A.intensity
  · rw [eAB, eBA]
    rw [add_comm (A.decay * A.intensity) (B.decay * B.intensity),
      add_comm A.intensity B.intensity]

/-- Claim C2 witness: concrete signals with identity "f", intensities 2 and
1, decays 3 and 5. -/
theorem C2_increase_merge_witness :
    (Signal.mk "f" 2 3).id = (Signal.mk "f" 1 5).id ∧
    0 < (Signal.mk "f" 2 3).intensity ∧ 0 < (Signal.mk "f" 1 5).intensity ∧
    ((Signal.mk "f" 2 3).increase (Signal.mk "f" 1 5) = (none,
      { id := (Signal.mk "f" 2 3).id
        intensity := (Signal.mk "f" 2 3).intensity + (Signal.mk "f" 1 5).intensity
        decay := ((Signal.mk "f" 2 3).decay * (Signal.mk "f" 2 3).intensity +
            (Signal.mk "f" 1 5).decay * (Signal.mk "f" 1 5).intensity) /
          ((Signal.mk "f" 2 3).intensity + (Signal.mk "f" 1 5).intensity) }) ∧
     ((Signal.mk "f" 1 5).increase (Signal.mk "f" 2 3)).2.intensity =
       ((Signal.mk "f" 2 3).increase (Signal.mk "f" 1 5)).2.intensity ∧
     ((Signal.mk "f" 1 5).increase (Signal.mk "f" 2 3)).2.decay =
       ((Signal.mk "f" 2 3).increase (Signal.mk "f" 1 5)).2.decay) :=
  ⟨rfl, by decide, by decide,
    C2_increase_merge (Signal.mk "f" 2 3) (Signal.mk "f" 1 5) rfl
      (by decide) (by decide)⟩

/-- Claim C3: decay with `d·dt ≥ 0`: if `d·dt ≥ i` the intensity becomes
exactly 0 and the call returns true; if `d·dt < i` it becomes exactly
`i - d·dt` and the call returns false; at intensity 0 the call keeps
intensity 0 and returns true; and the intensity is never left negative. -/
theorem C3_decrease_spec (s : Signal) (dt : ℚ) (hi : 0 ≤ s.intensity)
    (hd : 0 ≤ s.decay * dt) :
    (s.intensity ≤ s.decay * dt →
      s.decrease dt = ({ s with intensity := 0 }, true)) ∧
    (s.decay * dt < s.intensity →
      s.decrease dt = ({ s with intensity := s.intensity - s.decay * dt }, false)) ∧
    (s.intensity = 0 → s.decrease dt = ({ s with intensity := 0 }, true)) ∧
    0 ≤ (s.decrease dt).1.intensity := by
  refine ⟨fun h => ?_, fun h => ?_, fun h => ?_, ?_⟩
  · unfold Signal.decrease
    rw [if_pos (by linarith)]
  · unfold Signal.decrease
    rw [if_neg (by push_neg; linarith)]
  · unfold Signal.decrease
    rw [if_pos (by linarith)]
  · unfold Signal.decrease
    split_ifs with h1
    · simp
    · push_neg at h1
      simp
      linarith

/-- Claim C3 witness: a signal of intensity 5, decay 2, stepped by dt = 3
(total decay 6 ≥ 5, so it extinguishes). -/
theorem C3_decrease_spec_witness :
    0 ≤ (Signal.mk "food" 5 2).intensity ∧
    0 ≤ (Signal.mk "food" 5 2).decay * 3 ∧
    ((Signal.mk "food" 5 2).intensity ≤ (Signal.mk "food" 5 2).decay * 3 →
      (Signal.mk "food" 5 2).decrease 3 =
        ({ Signal.mk "food" 5 2 with intensity := 0 }, true)) :=
  ⟨by norm_num, by norm_num,
    (C3_decrease_spec (Signal.mk "food" 5 2) 3 (by norm_num) (by norm_num)).1⟩

/-- Claim C4: `grab_food` with `0 ≤ amount` and `0 ≤ food` returns
`min amount food`, leaves `food - returned` in the cell, and never leaves
the food negative. -/
theorem C4_grab_food_spec (c : Cell) (a : ℚ) (ha : 0 ≤ a) (hf : 0 ≤ c.food) :
    (c.grab_food a).1 = min a c.food ∧
    (c.grab_food a).2.food = c.food - (c.grab_food a).1 ∧
    0 ≤ (c.grab_food a).2.food := by
  unfold Cell.grab_food
  split_ifs with h
  · exact ⟨(min_eq_left h).symm, rfl, by simp; linarith⟩
  · push_neg at h
    refine ⟨(min_eq_right h.le).symm, ?_, by simp [hf]⟩
    simp

/-- Claim C4 witness: a cell holding 4 food, asked for 10. -/
theorem C4_grab_food_spec_witness :
    0 ≤ (10 : ℚ) ∧ 0 ≤ (Cell.mk ⟨0, 0⟩ none [] 4).food ∧
    (((Cell.mk ⟨0, 0⟩ none [] 4).grab_food 10).1 =
        min 10 (Cell.mk ⟨0, 0⟩ none [] 4).food ∧
      ((Cell.mk ⟨0, 0⟩ none [] 4).grab_food 10).2.food =
        (Cell.mk ⟨0, 0⟩ none [] 4).food -
          ((Cell.mk ⟨0, 0⟩ none [] 4).grab_food 10).1 ∧
      0 ≤ ((Cell.mk ⟨0, 0⟩ none [] 4).grab_food 10).2.food) :=
  ⟨by decide, by decide,
    C4_grab_food_spec (Cell.mk ⟨0, 0⟩ none [] 4) 10 (by decide) (by decide)⟩

/-- Claim C5: the claim says `signal_gradient` returns the offset-weighted
sum of neighborhood intensities, and in particular the zero vector when
queried at the center of a 5×5 world whose only signal sits at (2,2).  The
code instead raises: every `get_signal` goes through `get_cell`, which
raises `AttributeError` because `World.__init__` never assigns `self.W` /
`self.H`.  Here the exact claimed scenario is evaluated. -/
theorem C5_signal_gradient_raises_attribute_error :
    (setSignalAt (World.init 5 5) 2 2 ⟨"food", 10, 1⟩).signal_gradient
      ⟨2, 2⟩ 1 "food" = .error .attributeError := by
  rfl

/-- Claim C6: `add_signal` with a signal whose identity is absent from the
cell leaves the cell completely unchanged (and raises nothing): the first
deposit of a new identity is silently dropped. -/
theorem C6_add_signal_absent_noop (c : Cell) (signal : Signal)
    (h : List.lookup signal.id c.signals = none) :
    c.add_signal signal = (none, c) := by
  unfold Cell.add_signal
  rw [h]

/-- Claim C6 witness: depositing a "food" signal into a fresh cell. -/
theorem C6_add_signal_absent_noop_witness :
    List.lookup (Signal.mk "food" 5 1).id (Cell.init ⟨1, 1⟩).signals = none ∧
    (Cell.init ⟨1, 1⟩).add_signal (Signal.mk "food" 5 1) =
      (none, Cell.init ⟨1, 1⟩) :=
  ⟨rfl, C6_add_signal_absent_noop (Cell.init ⟨1, 1⟩) (Signal.mk "food" 5 1) rfl⟩

/-- Claim C7: `increase` raises the identity-mismatch exception iff the two
identities differ; with equal identities and positive total intensity it
completes without raising. -/
theorem C7_increase_mismatch_iff (A B : Signal) :
    ((A.increase B).1 = some PyErr.exception ↔ A.id ≠ B.id) ∧
    (A.id = B.id → 0 < A.intensity + B.intensity → (A.increase B).1 = none) := by
  constructor
  · constructor
    · intro h
      by_contra hid
      unfold Signal.increase at h
      rw [if_neg (by simp [hid])] at h
      split_ifs at h <;> simp at h
    · intro h
      unfold Signal.increase
      rw [if_pos h]
  · intro hid hpos
    unfold Signal.increase
    rw [if_neg (by simp [hid]),
      if_neg (show ¬(B.intensity + A.intensity = 0) from by intro hc; linarith)]

/-- Claim C7 witness: equal identities "f" with intensities 2 and 1 merge
without raising; the iff is instantiated at the same pair. -/
theorem C7_increase_mismatch_iff_witness :
    (Signal.mk "f" 2 3).id = (Signal.mk "f" 1 5).id ∧
    0 < (Signal.mk "f" 2 3).intensity + (Signal.mk "f" 1 5).intensity ∧
    ((Signal.mk "f" 2 3).increase (Signal.mk "f" 1 5)).1 = none :=
  ⟨rfl, by norm_num,
    (C7_increase_mismatch_iff (Signal.mk "f" 2 3) (Signal.mk "f" 1 5)).2 rfl
      (by norm_num)⟩

/-- Claim C8: `get_signal` returns the stored signal's intensity when the
identity is present, and exactly 0 when it is absent — in particular for
any cell built fresh and subjected to any sequence of `add_signal` calls
(none of which ever inserts), every lookup returns 0. -/
theorem C8_get_signal_spec (c : Cell) (key : String) :
    (∀ s, List.lookup key c.signals = some s → c.get_signal key = s.intensity) ∧
    (List.lookup key c.signals = none → c.get_signal key = 0) ∧
    (∀ (p : Position) (deposits : List Signal),
      ((Cell.init p).addAll deposits).get_signal key = 0) := by
  refine ⟨fun s hs => ?_, fun h => ?_, fun p deposits => ?_⟩
  · unfold Cell.get_signal
    rw [hs]
  · unfold Cell.get_signal
    rw [h]
  · rw [addAll_empty deposits (Cell.init p) rfl]
    rfl

/-- Claim C8 witness: a cell storing a "food" signal of intensity 7 reports
7 for "food" and 0 for "home"; a fresh cell after one (dropped) deposit
still reports 0. -/
theorem C8_get_signal_spec_witness :
    (Cell.mk ⟨0, 0⟩ none [("food", Signal.mk "food" 7 1)] 0).get_signal "food" =
      (Signal.mk "food" 7 1).intensity ∧
    (Cell.mk ⟨0, 0⟩ none [("food", Signal.mk "food" 7 1)] 0).get_signal "home" = 0 ∧
    ((Cell.init ⟨0, 0⟩).addAll [Signal.mk "food" 5 1]).get_signal "food" = 0 :=
  ⟨(C8_get_signal_spec (Cell.mk ⟨0, 0⟩ none [("food", Signal.mk "food" 7 1)] 0)
      "food").1 (Signal.mk "food" 7 1) rfl,
   (C8_get_signal_spec (Cell.mk ⟨0, 0⟩ none [("food", Signal.mk "food" 7 1)] 0)
      "home").2.1 rfl,
   (C8_get_signal_spec (Cell.init ⟨0, 0⟩) "food").2.2 ⟨0, 0⟩
      [Signal.mk "food" 5 1]⟩

/-- Claim C9: `move_dir` displaces by `distance` times the direction's unit
offset — UP = (0,-1), LEFT = (-1,0), DOWN = (0,1), RIGHT = (1,0) — and any
direction code outside the closed set fails with the DirectionError. -/
theorem C9_move_dir_spec (p : Position) (k : Int) :
    p.move_dir Direction.UP k = .ok ⟨p.x, p.y - k⟩ ∧
    p.move_dir Direction.LEFT k = .ok ⟨p.x - k, p.y⟩ ∧
    p.move_dir Direction.DOWN k = .ok ⟨p.x, p.y + k⟩ ∧
    p.move_dir Direction.RIGHT k = .ok ⟨p.x + k, p.y⟩ ∧
    ∀ d : Int, d ≠ Direction.UP → d ≠ Direction.LEFT → d ≠ Direction.DOWN →
      d ≠ Direction.RIGHT → p.move_dir d k = .error .directionError := by
  refine ⟨?_, ?_, ?_, ?_, fun d h0 h1 h2 h3 => ?_⟩
  · simp [Position.move_dir, DIRECTION_VECTORS, Direction.UP, Direction.LEFT,
      Direction.DOWN, Direction.RIGHT, Position.mulInt, Position.add_def,
      Position.mk.injEq, sub_eq_add_neg]
  · simp [Position.move_dir, DIRECTION_VECTORS, Direction.UP, Direction.LEFT,
      Direction.DOWN, Direction.RIGHT, Position.mulInt, Position.add_def,
      Position.mk.injEq, sub_eq_add_neg]
  · simp [Position.move_dir, DIRECTION_VECTORS, Direction.UP, Direction.LEFT,
      Direction.DOWN, Direction.RIGHT, Position.mulInt, Position.add_def,
      Position.mk.injEq]
  · simp [Position.move_dir, DIRECTION_VECTORS, Direction.UP, Direction.LEFT,
      Direction.DOWN, Direction.RIGHT, Position.mulInt, Position.add_def,
      Position.mk.injEq]
  · have g0 : d ≠ 0 := h0
    have g1 : d ≠ 1 := h1
    have g2 : d ≠ 2 := h2
    have g3 : d ≠ 3 := h3
    simp [Position.move_dir, DIRECTION_VECTORS, Direction.UP, Direction.LEFT,
      Direction.DOWN, Direction.RIGHT, g0, g1, g2, g3]

/-- Claim C9 witness: from (1,2), UP by 1 lands on (1,1); the invalid code 5
raises the DirectionError. -/
theorem C9_move_dir_spec_witness :
    (Position.mk 1 2).move_dir Direction.UP 1 = .ok ⟨1, 2 - 1⟩ ∧
    ((5 : Int) ≠ Direction.UP ∧ (5 : Int) ≠ Direction.LEFT ∧
      (5 : Int) ≠ Direction.DOWN ∧ (5 : Int) ≠ Direction.RIGHT) ∧
    (Position.mk 1 2).move_dir 5 1 = .error .directionError :=
  ⟨(C9_move_dir_spec ⟨1, 2⟩ 1).1,
   ⟨by decide, by decide, by decide, by decide⟩,
   (C9_move_dir_spec ⟨1, 2⟩ 1).2.2.2.2 5 (by decide) (by decide) (by decide)
     (by decide)⟩

/-- Claim C10: a mismatched-identity merge raises before any mutation: the
receiver's whole state (in particular intensity and decay) is unchanged
after the failed call. -/
theorem C10_increase_mismatch_atomic (A B : Signal) (h : A.id ≠ B.id) :
    (A.increase B).1 = some .exception ∧ (A.increase B).2 = A := by
  unfold Signal.increase
  rw [if_pos h]
  exact ⟨rfl, rfl⟩

/-- Claim C10 witness: merging a "b" signal into an "a" signal fails and
leaves the receiver untouched. -/
theorem C10_increase_mismatch_atomic_witness :
    (Signal.mk "a" 1 1).id ≠ (Signal.mk "b" 2 2).id ∧
    ((Signal.mk "a" 1 1).increase (Signal.mk "b" 2 2)).1 = some .exception ∧
    ((Signal.mk "a" 1 1).increase (Signal.mk "b" 2 2)).2 = Signal.mk "a" 1 1 :=
  ⟨by decide,
    C10_increase_mismatch_atomic (Signal.mk "a" 1 1) (Signal.mk "b" 2 2)
      (by decide)⟩

end Ants
